import Mathlib

set_option maxHeartbeats 1000000

/-
Verification of the application-intake pipeline of src/server.js:
the multer upload stage (diskStorage filename generation, fileFilter,
fileSize limit), the POST /enviar-candidatura handler (field validation,
email-shape check, transport verification, mail dispatch, temp-file
cleanup), and the surrounding Express error middleware.

Strings of the program are modelled as Lean String (lists of characters);
the temporary-upload directory is modelled as the list of paths currently
on disk; the two fallible network calls (transporter.verify and
transporter.sendMail) are modelled by a TransportBehavior parameter that
says which of them, if any, throws and with which error object.
-/

namespace PWS

/-- Whitespace class of a JavaScript regular expression: the set of
characters matched by the backslash-s class in ECMAScript
(tab, line feed, vertical tab, form feed, carriage return, space,
no-break space, ogham space mark, the U+2000 to U+200A range, line
separator, paragraph separator, narrow no-break space, medium
mathematical space, ideographic space, byte order mark). -/
def isJsSpace (c : Char) : Bool :=
  c == '\t' || c == '\n' || c == '\x0b' || c == '\x0c' || c == '\r' || c == ' ' ||
  c == '\u00A0' || c == '\u1680' || (decide ('\u2000' ≤ c) && decide (c ≤ '\u200A')) ||
  c == '\u2028' || c == '\u2029' || c == '\u202F' || c == '\u205F' || c == '\u3000' ||
  c == '\uFEFF'

/-- Character class of the email regular expression of src/server.js line 91:
the class excluding whitespace and the at sign (written in the source as a
negated class over backslash-s and the at sign). -/
def emailCharOk (c : Char) : Bool :=
  !(isJsSpace c) && c != '@'

/-- Splits a list at the first occurrence of the character a: returns
some (l, r) when the list is l ++ a :: r with a not occurring in l, and
none when a does not occur. Used to give an executable reading of the
anchored email regular expression of src/server.js line 91, whose local
part cannot contain the at sign, so the first at sign is the separator. -/
def breakAt (a : Char) : List Char → Option (List Char × List Char)
  | [] => none
  | c :: cs =>
    if c = a then some ([], cs)
    else
      match breakAt a cs with
      | none => none
      | some (l, r) => some (c :: l, r)

/-- The denotation of the anchored regular expression of src/server.js
line 91: a nonempty local part over the class of emailCharOk, an at sign,
then a domain that is a nonempty emailCharOk segment, a literal dot, and a
nonempty emailCharOk segment (the two segments may themselves contain
dots, since the dot belongs to the negated class). -/
def emailShape (s : List Char) : Prop :=
  ∃ l d1 d2 : List Char,
    s = l ++ '@' :: (d1 ++ '.' :: d2) ∧
    l ≠ [] ∧ d1 ≠ [] ∧ d2 ≠ [] ∧
    (∀ c ∈ l, emailCharOk c = true) ∧
    (∀ c ∈ d1, emailCharOk c = true) ∧
    (∀ c ∈ d2, emailCharOk c = true)

/-- Executable interior-dot check: the domain part of the email regular
expression needs a dot that is neither its first nor its last character. -/
def interiorDotB (d : List Char) : Bool :=
  decide ('.' ∈ (d.drop 1).dropLast)

/-- Executable decision of the email regular expression of src/server.js
line 91 on a list of characters: split at the first at sign (the local
part of the regular expression cannot contain one), then require a
nonempty all-ok local part, an all-ok remainder, and an interior dot in
the remainder. The theorem emailRegexTestL_iff proves this equal to the
declarative denotation emailShape. -/
def emailRegexTestL (s : List Char) : Bool :=
  match breakAt '@' s with
  | none => false
  | some (l, d) =>
    decide (l ≠ []) && l.all emailCharOk && d.all emailCharOk && interiorDotB d

/-- emailRegex.test of src/server.js lines 91 to 92, on Lean strings. -/
def emailRegexTest (s : String) : Bool :=
  emailRegexTestL s.data

/-- Base-ten digit list of a natural number, most significant digit first,
as produced by the JavaScript number-to-string conversion applied to the
nonnegative integers Date.now() and Math.round(Math.random() * 1E9) in
src/server.js line 21. -/
def natReprL (n : Nat) : List Char :=
  if _h : n < 10 then [Nat.digitChar n]
  else natReprL (n / 10) ++ [Nat.digitChar (n % 10)]
decreasing_by exact Nat.div_lt_self (by omega) (by omega)

/-- The stored filename generated by the multer diskStorage callback of
src/server.js lines 19 to 23: Date.now(), a dash, the rounded random
draw, an underscore, and the original client filename. -/
def genFilenameL (now rand : Nat) (originalname : List Char) : List Char :=
  natReprL now ++ '-' :: (natReprL rand ++ '_' :: originalname)

/-- String form of the generated stored filename of src/server.js
lines 19 to 23. -/
def genFilename (now rand : Nat) (originalname : String) : String :=
  ⟨genFilenameL now rand originalname.data⟩

/-- The on-disk path of the stored upload: the uploads destination
directory of src/server.js line 13 joined with the generated filename. -/
def uploadPath (now rand : Nat) (originalname : String) : String :=
  "./uploads/" ++ genFilename now rand originalname

/-- The file as sent by the client inside the multipart body: original
name, declared content type, and size in bytes. -/
structure IncomingFile where
  originalname : String
  mimetype : String
  size : Nat
deriving DecidableEq

/-- The req.file object the multer middleware hands to the route handler
in src/server.js line 76: original name, stored path, content type. -/
structure StoredFile where
  originalname : String
  path : String
  mimetype : String
deriving DecidableEq

/-- The request as seen by the route handler body of src/server.js
lines 75 to 76: the three text fields of req.body (absent fields are
none) and the optional stored file req.file. -/
structure Request where
  name : Option String
  email : Option String
  position : Option String
  file : Option StoredFile
deriving DecidableEq

/-- One attachment entry of the nodemailer mailOptions of src/server.js
lines 139 to 145. -/
structure Attachment where
  filename : String
  path : String
  contentType : String
deriving DecidableEq

/-- The nodemailer mailOptions object of src/server.js lines 120 to 146. -/
structure MailOptions where
  fromAddr : String
  toAddr : String
  replyTo : String
  subject : String
  html : String
  attachments : List Attachment
deriving DecidableEq

/-- The environment-sourced sender and recipient addresses of
src/server.js lines 121 to 122, after applying the defaults. -/
structure Config where
  fromEmail : String
  toEmail : String
deriving DecidableEq

/-- The default FROM_EMAIL and TO_EMAIL of src/server.js
lines 121 to 122, used when the environment sets neither. -/
def defaultConfig : Config :=
  { fromEmail := "contato@pereirawesolutions.com.br"
    toEmail := "rh@pereirawesolutions.com.br" }

/-- A JavaScript error object as used by the catch block of src/server.js
lines 163 to 183: its code property, read for user messaging, and the
rest of its internal detail (message and stack), used only for
server-side logging. -/
structure JsError where
  code : String
  detail : String
deriving DecidableEq

/-- Behavior of the nodemailer transport during one request: either
transporter.verify at src/server.js line 117 throws, or it succeeds and
transporter.sendMail at line 149 throws, or both succeed. These are the
two fallible operations inside the try block. -/
inductive TransportBehavior where
  | verifyFails (e : JsError)
  | sendFails (e : JsError)
  | ok
deriving DecidableEq

/-- Everything observable about the processing of one POST request:
the JSON response (status plus the success and message fields of the
envelope), the temp directory contents afterward, the ordered list of
unlink calls performed, the sendMail invocations attempted, the mails
actually delivered, and the server-side console lines. -/
structure HandlerResult where
  status : Nat
  success : Bool
  message : String
  disk : List String
  unlinks : List String
  attempts : List MailOptions
  sent : List MailOptions
  log : List String
deriving DecidableEq

/-- Disk contents after the guarded cleanup idiom of src/server.js
(for example lines 81 to 83): if a stored file is present and its path
exists, unlink it, otherwise leave the disk unchanged. -/
def diskAfterCleanup (file : Option StoredFile) (disk : List String) : List String :=
  match file with
  | none => disk
  | some f => if f.path ∈ disk then disk.erase f.path else disk

/-- The unlink calls issued by the guarded cleanup idiom of
src/server.js (for example lines 81 to 83): one unlink of the stored
path when the file is present and exists, none otherwise. -/
def unlinkEvents (file : Option StoredFile) (disk : List String) : List String :=
  match file with
  | none => []
  | some f => if f.path ∈ disk then [f.path] else []

/-- The user-facing message chosen by the catch block of src/server.js
lines 171 to 177: a configuration message for the ECONNECTION and EAUTH
codes, an attachment message for ENOENT, and the generic internal-error
message otherwise. Only the code property of the error is consulted. -/
def errorMessage (e : JsError) : String :=
  if e.code = "ECONNECTION" ∨ e.code = "EAUTH" then
    "Erro de configuração do servidor de e-mail"
  else if e.code = "ENOENT" then "Erro ao processar o arquivo anexo"
  else "Erro interno do servidor"

/-- The HTML body template of src/server.js lines 125 to 138 with its
four interpolations (name, email, position, and the formatted send
date). -/
def htmlBody (name email position dateStr : String) : String :=
  "<div style=\"font-family: Arial, sans-serif; max-width: 600px; margin: 0 auto;\">" ++
  "<h2 style=\"color: #323232ff;\">Nova Candidatura Recebida</h2>" ++
  "<div style=\"background: #f5f5f5; padding: 20px; border-radius: 5px;\">" ++
  "<p><strong>Nome:</strong> " ++ name ++ "</p>" ++
  "<p><strong>E-mail:</strong> " ++ email ++ "</p>" ++
  "<p><strong>Cargo desejado:</strong> " ++ position ++ "</p>" ++
  "<p><strong>Data do envio:</strong> " ++ dateStr ++ "</p>" ++
  "</div>" ++
  "<p style=\"margin-top: 20px; color: #666;\">" ++
  "Este e-mail foi enviado automaticamente através do sistema de candidaturas." ++
  "</p></div>"

/-- The mailOptions object built at src/server.js lines 120 to 146:
fixed sender and recipient from the configuration, reply-to set to the
applicant email, subject containing the position, the HTML summary, and
the resume attached by original name, stored path, and content type. -/
def mailOptionsOf (cfg : Config) (nowStr name email position : String)
    (f : StoredFile) : MailOptions :=
  { fromAddr := cfg.fromEmail
    toAddr := cfg.toEmail
    replyTo := email
    subject := "Nova Candidatura - " ++ position
    html := htmlBody name email position nowStr
    attachments := [{ filename := f.originalname, path := f.path, contentType := f.mimetype }] }

/-- The missing-field response of src/server.js lines 79 to 88: clean up
the stored file if present, then answer 400 with the mandatory-fields
message. -/
def missingFieldsResult (file : Option StoredFile) (disk : List String) : HandlerResult :=
  { status := 400, success := false
    message := "Todos os campos são obrigatórios"
    disk := diskAfterCleanup file disk
    unlinks := unlinkEvents file disk
    attempts := [], sent := [], log := [] }

/-- The route handler body of src/server.js lines 71 to 184. Absent text
fields read from req.body are JavaScript undefined, which the negation
test of line 79 treats exactly like the empty string, so fields are read
with a default of the empty string. The handler: rejects with 400 when a
field is falsy or the file is absent (removing a stored file first),
rejects with 400 when the email fails the regular expression (removing
the stored file first), then verifies the transport and sends the mail,
removing the stored file and answering 200 on success; any throw from
verify or sendMail reaches the catch block of lines 163 to 183, which
removes the stored file, logs the error detail, and answers 500 with the
message chosen from the error code alone. -/
def handleCandidatura (cfg : Config) (nowStr : String) (req : Request)
    (tr : TransportBehavior) (disk0 : List String) : HandlerResult :=
  let name := req.name.getD ""
  let email := req.email.getD ""
  let position := req.position.getD ""
  match req.file with
  | none => missingFieldsResult none disk0
  | some f =>
    if name = "" ∨ email = "" ∨ position = "" then
      missingFieldsResult (some f) disk0
    else if emailRegexTest email = true then
      match tr with
      | .verifyFails e =>
        { status := 500, success := false
          message := errorMessage e
          disk := diskAfterCleanup (some f) disk0
          unlinks := unlinkEvents (some f) disk0
          attempts := [], sent := []
          log := ["Erro ao processar candidatura: " ++ e.detail] }
      | .sendFails e =>
        { status := 500, success := false
          message := errorMessage e
          disk := diskAfterCleanup (some f) disk0
          unlinks := unlinkEvents (some f) disk0
          attempts := [mailOptionsOf cfg nowStr name email position f]
          sent := []
          log := ["Erro ao processar candidatura: " ++ e.detail] }
      | .ok =>
        { status := 200, success := true
          message := "Candidatura enviada com sucesso! Entraremos em contato em breve."
          disk := diskAfterCleanup (some f) disk0
          unlinks := unlinkEvents (some f) disk0
          attempts := [mailOptionsOf cfg nowStr name email position f]
          sent := [mailOptionsOf cfg nowStr name email position f]
          log := ["Candidatura enviada: " ++ name ++ " - " ++ position] }
    else
      { status := 400, success := false
        message := "E-mail inválido"
        disk := diskAfterCleanup (some f) disk0
        unlinks := unlinkEvents (some f) disk0
        attempts := [], sent := [], log := [] }

/-- The accepted content types of the multer fileFilter of src/server.js
lines 30 to 34. -/
def allowedMimes : List String :=
  ["application/pdf",
   "application/msword",
   "application/vnd.openxmlformats-officedocument.wordprocessingml.document"]

/-- The multer fileSize limit of src/server.js line 43: five megabytes. -/
def fileSizeLimit : Nat := 5 * 1024 * 1024

/-- The req.file object produced when multer accepts and stores the
incoming file, with the generated collision-resistant path. -/
def storedFileFor (now rand : Nat) (inc : IncomingFile) : StoredFile :=
  { originalname := inc.originalname
    path := uploadPath now rand inc.originalname
    mimetype := inc.mimetype }

/-- Outcome of the upload.single middleware of src/server.js
lines 26 to 45 for one request: no file field, a stored file plus the
new disk contents, the custom fileFilter rejection error of line 39, or
the multer LIMIT_FILE_SIZE error produced by the fileSize limit of
line 43. -/
inductive MulterOutcome where
  | noFile (disk : List String)
  | stored (f : StoredFile) (disk : List String)
  | fileFilterError (msg : String)
  | limitFileSize
deriving DecidableEq

/-- The upload.single middleware of src/server.js lines 26 to 45: with
no file the route runs with req.file undefined; otherwise the fileFilter
of lines 28 to 41 consults the declared content type before the file is
written, and an accepted file is then subject to the fileSize limit of
line 43 while being written (multer removes the partial file when the
limit aborts the write, so the disk is unchanged on that error). An
accepted file is stored under the generated path. -/
def multerSingle (now rand : Nat) (file : Option IncomingFile)
    (disk0 : List String) : MulterOutcome :=
  match file with
  | none => .noFile disk0
  | some inc =>
    if inc.mimetype ∈ allowedMimes then
      if inc.size ≤ fileSizeLimit then
        .stored (storedFileFor now rand inc) (uploadPath now rand inc.originalname :: disk0)
      else .limitFileSize
    else .fileFilterError "Apenas arquivos PDF e DOC/DOCX são permitidos"

/-- The form data of one multipart POST /enviar-candidatura request as
sent by the client: three optional text fields and an optional file. -/
structure FormData where
  name : Option String
  email : Option String
  position : Option String
  file : Option IncomingFile
deriving DecidableEq

/-- Full processing of one POST /enviar-candidatura request through the
Express stack of src/server.js. When multer stores the file or sees no
file, the route handler of lines 71 to 184 runs. When multer fails with
either the custom fileFilter error of line 39 or the LIMIT_FILE_SIZE
MulterError, the error is dispatched forward through the middleware
stack: the multer error middleware of lines 53 to 63 is registered
before the route, and Express routes an error only to error middleware
registered after the layer that raised it, so that middleware never
receives errors of this route; the first error middleware after the
route is the global one of lines 203 to 209, which logs the error and
answers 500 with the generic internal-error message. -/
def processRequest (cfg : Config) (nowStr : String) (now rand : Nat)
    (form : FormData) (tr : TransportBehavior) (disk0 : List String) : HandlerResult :=
  match multerSingle now rand form.file disk0 with
  | .noFile disk1 =>
    handleCandidatura cfg nowStr
      { name := form.name, email := form.email, position := form.position, file := none }
      tr disk1
  | .stored f disk1 =>
    handleCandidatura cfg nowStr
      { name := form.name, email := form.email, position := form.position, file := some f }
      tr disk1
  | .fileFilterError msg =>
    { status := 500, success := false
      message := "Erro interno do servidor"
      disk := disk0, unlinks := [], attempts := [], sent := []
      log := ["Erro não tratado: " ++ msg] }
  | .limitFileSize =>
    { status := 500, success := false
      message := "Erro interno do servidor"
      disk := disk0, unlinks := [], attempts := [], sent := []
      log := ["Erro não tratado: LIMIT_FILE_SIZE"] }

/-- A file, when present, passes the upload acceptance checks of the
multer configuration of src/server.js lines 26 to 45: allowed content
type and size within the limit. -/
def uploadAccepted : Option IncomingFile → Bool
  | none => true
  | some inc => decide (inc.mimetype ∈ allowedMimes) && decide (inc.size ≤ fileSizeLimit)

/-- No temp file of this submission is on the given disk: when the form
carried a file, the path the upload stage generates for it does not
occur there. -/
def noResidue (now rand : Nat) (file : Option IncomingFile) (disk : List String) : Prop :=
  ∀ inc, file = some inc → uploadPath now rand inc.originalname ∉ disk

/-- breakAt is sound: a successful split really is the first occurrence of
the separator. -/
theorem breakAt_sound {a : Char} :
    ∀ {s l r : List Char}, breakAt a s = some (l, r) → s = l ++ a :: r ∧ a ∉ l := by
  intro s
  induction s with
  | nil => intro l r h; simp [breakAt] at h
  | cons c cs ih =>
    intro l r h
    by_cases hc : c = a
    · subst hc
      rw [breakAt, if_pos rfl] at h
      simp only [Option.some.injEq, Prod.mk.injEq] at h
      obtain ⟨hl, hr⟩ := h
      subst hl; subst hr
      simp
    · rw [breakAt, if_neg hc] at h
      cases hb : breakAt a cs with
      | none => rw [hb] at h; simp at h
      | some p =>
        obtain ⟨l', r'⟩ := p
        rw [hb] at h
        simp only [Option.some.injEq, Prod.mk.injEq] at h
        obtain ⟨hl, hr⟩ := h
        obtain ⟨hs, hnotin⟩ := ih hb
        subst hr
        constructor
        · rw [← hl, List.cons_append, ← hs]
        · rw [← hl]
          intro hmem
          rcases List.mem_cons.mp hmem with hmem | hmem
          · exact hc hmem.symm
          · exact hnotin hmem

/-- breakAt is complete: splitting at an occurrence preceded by
separator-free characters succeeds with exactly that split. -/
theorem breakAt_complete {a : Char} :
    ∀ (l r : List Char), a ∉ l → breakAt a (l ++ a :: r) = some (l, r) := by
  intro l
  induction l with
  | nil => intro r _; simp [breakAt]
  | cons c t ih =>
    intro r hnotin
    have hc : ¬ c = a := by
      intro h
      exact hnotin (by simp [h])
    rw [List.cons_append, breakAt, if_neg hc,
      ih r (fun h => hnotin (List.mem_cons_of_mem _ h))]

/-- The executable email test decides exactly the denotation of the
email regular expression of src/server.js line 91. -/
theorem emailRegexTestL_iff (s : List Char) : emailRegexTestL s = true ↔ emailShape s := by
  constructor
  · intro h
    unfold emailRegexTestL at h
    cases hb : breakAt '@' s with
    | none => rw [hb] at h; simp at h
    | some p =>
      obtain ⟨l, d⟩ := p
      rw [hb] at h
      simp only [Bool.and_eq_true, decide_eq_true_eq, List.all_eq_true] at h
      obtain ⟨⟨⟨hl, hlok⟩, hdok⟩, hdot⟩ := h
      obtain ⟨hs, _⟩ := breakAt_sound hb
      have hdot' : '.' ∈ (d.drop 1).dropLast := by
        simpa [interiorDotB] using hdot
      cases d with
      | nil => simp at hdot'
      | cons c rest =>
        simp only [List.drop_succ_cons, List.drop_zero] at hdot'
        obtain ⟨u, v, huv⟩ := List.append_of_mem hdot'
        have hrest_ne : rest ≠ [] := by
          intro h0
          rw [h0] at hdot'
          simp at hdot'
        have hrest : rest = (u ++ '.' :: v) ++ [rest.getLast hrest_ne] := by
          conv_lhs => rw [← List.dropLast_append_getLast hrest_ne]
          rw [huv]
        refine ⟨l, c :: u, v ++ [rest.getLast hrest_ne], ?_, hl, by simp, by simp, hlok, ?_, ?_⟩
        · rw [hs]
          conv_lhs => rw [hrest]
          simp
        · intro x hx
          apply hdok
          rcases List.mem_cons.mp hx with hx | hx
          · exact hx ▸ List.mem_cons_self _ _
          · exact List.mem_cons_of_mem _ (by rw [hrest]; simp [hx])
        · intro x hx
          apply hdok
          refine List.mem_cons_of_mem _ ?_
          rw [hrest]
          rcases List.mem_append.mp hx with hx | hx
          · simp [hx]
          · simp at hx
            simp [hx]
  · rintro ⟨l, d1, d2, hs, hl, hd1, hd2, hlok, hd1ok, hd2ok⟩
    have hnotin : '@' ∉ l := by
      intro hmem
      have := hlok _ hmem
      simp [emailCharOk] at this
    unfold emailRegexTestL
    rw [hs, breakAt_complete l _ hnotin]
    simp only [Bool.and_eq_true, decide_eq_true_eq, List.all_eq_true]
    refine ⟨⟨⟨hl, hlok⟩, ?_⟩, ?_⟩
    · intro x hx
      rcases List.mem_append.mp hx with hx | hx
      · exact hd1ok x hx
      · rcases List.mem_cons.mp hx with hx | hx
        · subst hx; decide
        · exact hd2ok x hx
    · obtain ⟨c, u, rfl⟩ := List.exists_cons_of_ne_nil hd1
      have hd2' : d2 = d2.dropLast ++ [d2.getLast hd2] :=
        (List.dropLast_append_getLast hd2).symm
      simp only [interiorDotB, decide_eq_true_eq, List.cons_append, List.drop_succ_cons,
        List.drop_zero]
      rw [hd2']
      have : u ++ '.' :: (d2.dropLast ++ [d2.getLast hd2])
          = (u ++ '.' :: d2.dropLast) ++ [d2.getLast hd2] := by simp
      rw [this, List.dropLast_concat]
      simp

/-- A digit character is never the dash separator of the generated
filename. -/
theorem digitChar_ne_dash {a : Nat} (h : a < 10) : Nat.digitChar a ≠ '-' := by
  interval_cases a <;> decide

/-- A digit character is never the underscore separator of the generated
filename. -/
theorem digitChar_ne_underscore {a : Nat} (h : a < 10) : Nat.digitChar a ≠ '_' := by
  interval_cases a <;> decide

/-- Nat.digitChar is injective below ten. -/
theorem digitChar_inj {a b : Nat} (ha : a < 10) (hb : b < 10)
    (h : Nat.digitChar a = Nat.digitChar b) : a = b := by
  interval_cases a <;> interval_cases b <;> revert h <;> decide

/-- The digit list of a natural number is never empty. -/
theorem natReprL_ne_nil (n : Nat) : natReprL n ≠ [] := by
  rw [natReprL]
  split <;> simp

/-- Every character of the digit list of a natural number is a decimal
digit. -/
theorem natReprL_isDigit (n : Nat) : ∀ c ∈ natReprL n, c.isDigit = true := by
  induction n using Nat.strong_induction_on with
  | _ n ih =>
    rw [natReprL]
    by_cases h : n < 10
    · rw [dif_pos h]
      intro c hc
      simp only [List.mem_singleton] at hc
      subst hc
      interval_cases n <;> decide
    · rw [dif_neg h]
      intro c hc
      rcases List.mem_append.mp hc with hc | hc
      · exact ih (n / 10) (Nat.div_lt_self (by omega) (by omega)) c hc
      · simp only [List.mem_singleton] at hc
        subst hc
        have h10 : n % 10 < 10 := Nat.mod_lt _ (by omega)
        revert h10
        generalize n % 10 = a
        intro h10
        interval_cases a <;> decide

/-- The dash never occurs among the digits of a natural number. -/
theorem natReprL_not_dash {n : Nat} : '-' ∉ natReprL n := by
  intro h
  exact absurd (natReprL_isDigit n _ h) (by decide)

/-- The underscore never occurs among the digits of a natural number. -/
theorem natReprL_not_underscore {n : Nat} : '_' ∉ natReprL n := by
  intro h
  exact absurd (natReprL_isDigit n _ h) (by decide)

/-- Splitting lists at a separator that occurs in neither prefix is
injective: the prefixes and the suffixes agree. -/
theorem append_sep_inj {sep : Char} :
    ∀ {a b x y : List Char}, sep ∉ a → sep ∉ b →
      a ++ sep :: x = b ++ sep :: y → a = b ∧ x = y := by
  intro a
  induction a with
  | nil =>
    intro b x y _ hb h
    cases b with
    | nil =>
      simp only [List.nil_append, List.cons.injEq, true_and] at h
      exact ⟨rfl, h⟩
    | cons d bt =>
      simp only [List.nil_append, List.cons_append, List.cons.injEq] at h
      exfalso
      apply hb
      rw [← h.1]
      exact List.mem_cons_self _ _
  | cons c ta ih =>
    intro b x y ha hb h
    cases b with
    | nil =>
      simp only [List.cons_append, List.nil_append, List.cons.injEq] at h
      exfalso
      apply ha
      rw [h.1]
      exact List.mem_cons_self _ _
    | cons d bt =>
      simp only [List.cons_append, List.cons.injEq] at h
      obtain ⟨hcd, ht⟩ := h
      obtain ⟨h1, h2⟩ := ih (fun hm => ha (List.mem_cons_of_mem _ hm))
        (fun hm => hb (List.mem_cons_of_mem _ hm)) ht
      exact ⟨by rw [hcd, h1], h2⟩

/-- The base-ten digit list determines the natural number. -/
theorem natReprL_inj : ∀ m n : Nat, natReprL m = natReprL n → m = n := by
  intro m
  induction m using Nat.strong_induction_on with
  | _ m ih =>
    intro n h
    by_cases hm : m < 10 <;> by_cases hn : n < 10
    · rw [natReprL, dif_pos hm, natReprL, dif_pos hn] at h
      simp only [List.cons.injEq] at h
      exact digitChar_inj hm hn h.1
    · rw [natReprL, dif_pos hm, natReprL, dif_neg hn] at h
      have hlen := congrArg List.length h
      have hpos : 0 < (natReprL (n / 10)).length :=
        List.length_pos.mpr (natReprL_ne_nil (n / 10))
      simp only [List.length_singleton, List.length_append] at hlen
      omega
    · rw [natReprL, dif_neg hm] at h
      nth_rewrite 2 [natReprL] at h
      rw [dif_pos hn] at h
      have hlen := congrArg List.length h
      have hpos : 0 < (natReprL (m / 10)).length :=
        List.length_pos.mpr (natReprL_ne_nil (m / 10))
      simp only [List.length_singleton, List.length_append] at hlen
      omega
    · rw [natReprL, dif_neg hm] at h
      nth_rewrite 2 [natReprL] at h
      rw [dif_neg hn] at h
      obtain ⟨h1, h2⟩ := List.append_inj' h rfl
      simp only [List.cons.injEq] at h2
      have hd : m / 10 = n / 10 :=
        ih (m / 10) (Nat.div_lt_self (by omega) (by omega)) _ h1
      have hm10 : m % 10 = n % 10 :=
        digitChar_inj (Nat.mod_lt _ (by omega)) (Nat.mod_lt _ (by omega)) h2.1
      omega

/-- The generated stored filename determines the timestamp and the random
suffix that produced it, for a fixed original name. -/
theorem genFilenameL_inj {n1 r1 n2 r2 : Nat} {o : List Char}
    (h : genFilenameL n1 r1 o = genFilenameL n2 r2 o) : n1 = n2 ∧ r1 = r2 := by
  unfold genFilenameL at h
  obtain ⟨h1, h2⟩ := append_sep_inj natReprL_not_dash natReprL_not_dash h
  obtain ⟨h3, _⟩ := append_sep_inj natReprL_not_underscore natReprL_not_underscore h2
  exact ⟨natReprL_inj _ _ h1, natReprL_inj _ _ h3⟩

/-- An accepted upload reduces the multer middleware to a stored file
under the generated path. -/
theorem multerSingle_eq_stored {now rand : Nat} {inc : IncomingFile} {disk0 : List String}
    (hm : inc.mimetype ∈ allowedMimes) (hs : inc.size ≤ fileSizeLimit) :
    multerSingle now rand (some inc) disk0 =
      .stored (storedFileFor now rand inc) (uploadPath now rand inc.originalname :: disk0) := by
  simp only [multerSingle]
  rw [if_pos hm, if_pos hs]

/-- With an accepted upload, the whole pipeline is the route handler run
on the stored file and the grown disk. -/
theorem processRequest_eq_stored (cfg : Config) (nowStr : String) (now rand : Nat)
    (n e p : Option String) (inc : IncomingFile) (tr : TransportBehavior)
    (disk0 : List String)
    (hm : inc.mimetype ∈ allowedMimes) (hs : inc.size ≤ fileSizeLimit) :
    processRequest cfg nowStr now rand ⟨n, e, p, some inc⟩ tr disk0 =
      handleCandidatura cfg nowStr ⟨n, e, p, some (storedFileFor now rand inc)⟩ tr
        (uploadPath now rand inc.originalname :: disk0) := by
  simp only [processRequest]
  rw [multerSingle_eq_stored hm hs]

/-- With no file field, the whole pipeline is the route handler run with
req.file undefined and the disk unchanged. -/
theorem processRequest_eq_noFile (cfg : Config) (nowStr : String) (now rand : Nat)
    (n e p : Option String) (tr : TransportBehavior) (disk0 : List String) :
    processRequest cfg nowStr now rand ⟨n, e, p, none⟩ tr disk0 =
      handleCandidatura cfg nowStr ⟨n, e, p, none⟩ tr disk0 := by
  simp only [processRequest, multerSingle]

/-- Cleaning up a stored file whose path heads the disk removes exactly
that head. -/
theorem diskAfterCleanup_self (f : StoredFile) (disk0 : List String) :
    diskAfterCleanup (some f) (f.path :: disk0) = disk0 := by
  simp [diskAfterCleanup]

/-- Cleaning up a stored file whose path heads the disk unlinks exactly
that path, once. -/
theorem unlinkEvents_self (f : StoredFile) (disk0 : List String) :
    unlinkEvents (some f) (f.path :: disk0) = [f.path] := by
  simp [unlinkEvents]

/-- When a field is falsy (absent or empty) and a file is stored, the
handler takes the missing-fields exit. -/
theorem handleCandidatura_eq_missing (cfg : Config) (nowStr : String)
    (n e p : Option String) (f : StoredFile) (tr : TransportBehavior)
    (disk0 : List String)
    (h : n.getD "" = "" ∨ e.getD "" = "" ∨ p.getD "" = "") :
    handleCandidatura cfg nowStr ⟨n, e, p, some f⟩ tr disk0 =
      missingFieldsResult (some f) disk0 := by
  simp only [handleCandidatura]
  rw [if_pos h]

/-- When all fields are truthy but the email fails the regular
expression, the handler takes the invalid-email exit. -/
theorem handleCandidatura_eq_invalid (cfg : Config) (nowStr : String)
    (n e p : Option String) (f : StoredFile) (tr : TransportBehavior)
    (disk0 : List String)
    (hne : ¬ (n.getD "" = "" ∨ e.getD "" = "" ∨ p.getD "" = ""))
    (htest : emailRegexTest (e.getD "") = false) :
    handleCandidatura cfg nowStr ⟨n, e, p, some f⟩ tr disk0 =
      { status := 400, success := false, message := "E-mail inválido"
        disk := diskAfterCleanup (some f) disk0
        unlinks := unlinkEvents (some f) disk0
        attempts := [], sent := [], log := [] } := by
  simp only [handleCandidatura]
  rw [if_neg hne, if_neg (by rw [htest]; simp)]

/-- When validation passes and both transport calls succeed, the handler
takes the success exit: one mail sent, the stored file cleaned up. -/
theorem handleCandidatura_eq_ok (cfg : Config) (nowStr : String)
    (n e p : Option String) (f : StoredFile) (disk0 : List String)
    (hne : ¬ (n.getD "" = "" ∨ e.getD "" = "" ∨ p.getD "" = ""))
    (htest : emailRegexTest (e.getD "") = true) :
    handleCandidatura cfg nowStr ⟨n, e, p, some f⟩ .ok disk0 =
      { status := 200, success := true
        message := "Candidatura enviada com sucesso! Entraremos em contato em breve."
        disk := diskAfterCleanup (some f) disk0
        unlinks := unlinkEvents (some f) disk0
        attempts := [mailOptionsOf cfg nowStr (n.getD "") (e.getD "") (p.getD "") f]
        sent := [mailOptionsOf cfg nowStr (n.getD "") (e.getD "") (p.getD "") f]
        log := ["Candidatura enviada: " ++ n.getD "" ++ " - " ++ p.getD ""] } := by
  simp only [handleCandidatura]
  rw [if_neg hne, if_pos htest]

/-- When validation passes and transporter.verify throws, the handler
takes the catch exit with no sendMail attempt. -/
theorem handleCandidatura_eq_verifyFails (cfg : Config) (nowStr : String)
    (n e p : Option String) (f : StoredFile) (disk0 : List String) (err : JsError)
    (hne : ¬ (n.getD "" = "" ∨ e.getD "" = "" ∨ p.getD "" = ""))
    (htest : emailRegexTest (e.getD "") = true) :
    handleCandidatura cfg nowStr ⟨n, e, p, some f⟩ (.verifyFails err) disk0 =
      { status := 500, success := false
        message := errorMessage err
        disk := diskAfterCleanup (some f) disk0
        unlinks := unlinkEvents (some f) disk0
        attempts := [], sent := []
        log := ["Erro ao processar candidatura: " ++ err.detail] } := by
  simp only [handleCandidatura]
  rw [if_neg hne, if_pos htest]

/-- When validation passes, verify succeeds, and sendMail throws, the
handler takes the catch exit after one failed sendMail attempt. -/
theorem handleCandidatura_eq_sendFails (cfg : Config) (nowStr : String)
    (n e p : Option String) (f : StoredFile) (disk0 : List String) (err : JsError)
    (hne : ¬ (n.getD "" = "" ∨ e.getD "" = "" ∨ p.getD "" = ""))
    (htest : emailRegexTest (e.getD "") = true) :
    handleCandidatura cfg nowStr ⟨n, e, p, some f⟩ (.sendFails err) disk0 =
      { status := 500, success := false
        message := errorMessage err
        disk := diskAfterCleanup (some f) disk0
        unlinks := unlinkEvents (some f) disk0
        attempts := [mailOptionsOf cfg nowStr (n.getD "") (e.getD "") (p.getD "") f]
        sent := []
        log := ["Erro ao processar candidatura: " ++ err.detail] } := by
  simp only [handleCandidatura]
  rw [if_neg hne, if_pos htest]

/-- On every exit of the route handler, the unlink calls are exactly the
guarded cleanup of the stored file against the initial disk. -/
theorem handleCandidatura_unlinks (cfg : Config) (nowStr : String) (req : Request)
    (tr : TransportBehavior) (disk0 : List String) :
    (handleCandidatura cfg nowStr req tr disk0).unlinks = unlinkEvents req.file disk0 := by
  obtain ⟨n, e, p, f⟩ := req
  cases f with
  | none => simp [handleCandidatura, missingFieldsResult, unlinkEvents]
  | some f =>
    cases tr <;>
      simp only [handleCandidatura, missingFieldsResult] <;>
      split_ifs <;> simp

/-- A nonempty match of the email regular expression forces a nonempty
email string. -/
theorem emailRegexTest_ne_empty {email : String} (h : emailRegexTest email = true) :
    email ≠ "" := by
  intro he
  subst he
  exact absurd h (by decide)

/-- Cleaning up the freshly stored file removes exactly the generated
path from the disk head. -/
theorem diskAfterCleanup_stored (now rand : Nat) (inc : IncomingFile) (disk0 : List String) :
    diskAfterCleanup (some (storedFileFor now rand inc))
      (uploadPath now rand inc.originalname :: disk0) = disk0 := by
  simp [diskAfterCleanup, storedFileFor]

/-- Cleaning up the freshly stored file unlinks exactly the generated
path, once. -/
theorem unlinkEvents_stored (now rand : Nat) (inc : IncomingFile) (disk0 : List String) :
    unlinkEvents (some (storedFileFor now rand inc))
      (uploadPath now rand inc.originalname :: disk0)
      = [uploadPath now rand inc.originalname] := by
  simp [unlinkEvents, storedFileFor]

/-- C1: for every POST /enviar-candidatura request in which a resume file
was stored to the temp directory (the upload passed the content-type and
size checks of the multer configuration), the stored file is removed
exactly once before the handler responds — the unlink trace of the
request is exactly its generated path — on every exit path: successful
dispatch, missing-field failure, invalid-email failure, email dispatch
failure, and any error thrown inside the try block by the transport
calls. -/
theorem c1_stored_file_removed_exactly_once (cfg : Config) (nowStr : String)
    (now rand : Nat) (n e p : Option String) (inc : IncomingFile)
    (tr : TransportBehavior) (disk0 : List String)
    (hm : inc.mimetype ∈ allowedMimes) (hs : inc.size ≤ fileSizeLimit) :
    (processRequest cfg nowStr now rand ⟨n, e, p, some inc⟩ tr disk0).unlinks
      = [uploadPath now rand inc.originalname] := by
  rw [processRequest_eq_stored cfg nowStr now rand n e p inc tr disk0 hm hs,
    handleCandidatura_unlinks]
  exact unlinkEvents_stored now rand inc disk0

/-- Witness for C1 at a concrete accepted upload, with the hypotheses
discharged by evaluation. -/
theorem c1_witness :
    ("application/pdf" ∈ allowedMimes ∧ 100 ≤ fileSizeLimit) ∧
    (processRequest defaultConfig "ts" 17 3
      ⟨some "Ana", some "ana@ex.com", some "Dev",
        some ⟨"cv.pdf", "application/pdf", 100⟩⟩ TransportBehavior.ok []).unlinks
      = [uploadPath 17 3 "cv.pdf"] :=
  ⟨⟨by decide, by decide⟩,
    c1_stored_file_removed_exactly_once defaultConfig "ts" 17 3
      (some "Ana") (some "ana@ex.com") (some "Dev") ⟨"cv.pdf", "application/pdf", 100⟩
      TransportBehavior.ok [] (by decide) (by decide)⟩

/-- C4: at a submission whose resume file exceeds the 5MB limit, the
LIMIT_FILE_SIZE error bypasses the multer error middleware of
src/server.js lines 53 to 63 (registered before the route, so never
reached by errors of the route) and is answered by the global error
middleware of lines 203 to 209: status 500 with the generic
internal-error message, not the 400 size-limit response those lines (and
the specification) intend. No file persists and no mail is dispatched. -/
theorem c4_oversize_file_500 :
    (processRequest defaultConfig "ts" 5 6
      ⟨some "Bruno", some "bruno@ex.com", some "QA",
        some ⟨"cv.pdf", "application/pdf", 5242881⟩⟩ TransportBehavior.ok []).status = 500 ∧
    (processRequest defaultConfig "ts" 5 6
      ⟨some "Bruno", some "bruno@ex.com", some "QA",
        some ⟨"cv.pdf", "application/pdf", 5242881⟩⟩ TransportBehavior.ok []).status ≠ 400 ∧
    (processRequest defaultConfig "ts" 5 6
      ⟨some "Bruno", some "bruno@ex.com", some "QA",
        some ⟨"cv.pdf", "application/pdf", 5242881⟩⟩ TransportBehavior.ok []).message
      = "Erro interno do servidor" ∧
    (processRequest defaultConfig "ts" 5 6
      ⟨some "Bruno", some "bruno@ex.com", some "QA",
        some ⟨"cv.pdf", "application/pdf", 5242881⟩⟩ TransportBehavior.ok []).message
      ≠ "Arquivo muito grande. Tamanho máximo permitido: 5MB" ∧
    (processRequest defaultConfig "ts" 5 6
      ⟨some "Bruno", some "bruno@ex.com", some "QA",
        some ⟨"cv.pdf", "application/pdf", 5242881⟩⟩ TransportBehavior.ok []).disk = [] ∧
    (processRequest defaultConfig "ts" 5 6
      ⟨some "Bruno", some "bruno@ex.com", some "QA",
        some ⟨"cv.pdf", "application/pdf", 5242881⟩⟩ TransportBehavior.ok []).sent = [] := by
  decide

/-- C5: at a submission whose resume file declares a content type outside
the allowed set, the fileFilter rejection of src/server.js line 39 is a
plain Error, not a MulterError, so even the (unreachable for this route)
multer middleware of lines 53 to 63 would not map it; the global error
middleware answers 500 with the generic message rather than a 400 client
error. The rejection does happen before any dispatch and before the file
is written: no file persists, no sendMail call is made. -/
theorem c5_bad_mimetype_500 :
    (processRequest defaultConfig "ts" 7 8
      ⟨some "Carla", some "carla@ex.com", some "Dev",
        some ⟨"cv.txt", "text/plain", 100⟩⟩ TransportBehavior.ok []).status = 500 ∧
    (processRequest defaultConfig "ts" 7 8
      ⟨some "Carla", some "carla@ex.com", some "Dev",
        some ⟨"cv.txt", "text/plain", 100⟩⟩ TransportBehavior.ok []).status ≠ 400 ∧
    (processRequest defaultConfig "ts" 7 8
      ⟨some "Carla", some "carla@ex.com", some "Dev",
        some ⟨"cv.txt", "text/plain", 100⟩⟩ TransportBehavior.ok []).message
      = "Erro interno do servidor" ∧
    (processRequest defaultConfig "ts" 7 8
      ⟨some "Carla", some "carla@ex.com", some "Dev",
        some ⟨"cv.txt", "text/plain", 100⟩⟩ TransportBehavior.ok []).disk = [] ∧
    (processRequest defaultConfig "ts" 7 8
      ⟨some "Carla", some "carla@ex.com", some "Dev",
        some ⟨"cv.txt", "text/plain", 100⟩⟩ TransportBehavior.ok []).sent = [] ∧
    (processRequest defaultConfig "ts" 7 8
      ⟨some "Carla", some "carla@ex.com", some "Dev",
        some ⟨"cv.txt", "text/plain", 100⟩⟩ TransportBehavior.ok []).attempts = [] := by
  decide

/-- C8 counterexample: the generated names are not unconditionally
distinct across two submissions of identical form data — when the
timestamp and the random draw of the two requests coincide, the names
collide, so the claim as stated (never a collision) is false. -/
theorem c8_collision_possible :
    ¬ ∀ (now1 rand1 now2 rand2 : Nat) (orig : String),
        genFilename now1 rand1 orig ≠ genFilename now2 rand2 orig :=
  fun h => h 1700000000000 424242 1700000000000 424242 "cv.pdf" rfl

/-- The stored upload path determines the timestamp and the random
suffix that produced it, for a fixed original name. -/
theorem uploadPath_inj {now1 rand1 now2 rand2 : Nat} {o : String}
    (h : uploadPath now1 rand1 o = uploadPath now2 rand2 o) :
    now1 = now2 ∧ rand1 = rand2 := by
  have hd := congrArg String.data h
  simp only [uploadPath, genFilename, String.data_append] at hd
  exact genFilenameL_inj (List.append_cancel_left hd)

/-- C8 (amended): for any two submissions of identical form data (same
truthy fields, same regex-accepted email, same accepted resume file),
run against a transport that accepts, the two requests store their files
under distinct temp filenames — and distinct stored paths — whenever
their (timestamp, random suffix) draws differ in at least one component
(a collision of the generated names requires both the millisecond
timestamp and the random suffix to coincide), and each request
independently produces its own successful dispatch: each responds 200
and sends exactly one mail referencing that request's own stored path,
so the two sent mails are distinct. -/
theorem c8_filenames_distinct (cfg : Config) (nowStr : String)
    (now1 rand1 now2 rand2 : Nat) (name email position : String)
    (inc : IncomingFile) (disk1 disk2 : List String)
    (hdraw : ¬ (now1 = now2 ∧ rand1 = rand2))
    (hname : name ≠ "") (hpos : position ≠ "")
    (htest : emailRegexTest email = true)
    (hm : inc.mimetype ∈ allowedMimes) (hs : inc.size ≤ fileSizeLimit) :
    genFilename now1 rand1 inc.originalname ≠ genFilename now2 rand2 inc.originalname ∧
    uploadPath now1 rand1 inc.originalname ≠ uploadPath now2 rand2 inc.originalname ∧
    (processRequest cfg nowStr now1 rand1
      ⟨some name, some email, some position, some inc⟩ TransportBehavior.ok disk1).status
      = 200 ∧
    (processRequest cfg nowStr now1 rand1
      ⟨some name, some email, some position, some inc⟩ TransportBehavior.ok disk1).sent
      = [mailOptionsOf cfg nowStr name email position (storedFileFor now1 rand1 inc)] ∧
    (processRequest cfg nowStr now2 rand2
      ⟨some name, some email, some position, some inc⟩ TransportBehavior.ok disk2).status
      = 200 ∧
    (processRequest cfg nowStr now2 rand2
      ⟨some name, some email, some position, some inc⟩ TransportBehavior.ok disk2).sent
      = [mailOptionsOf cfg nowStr name email position (storedFileFor now2 rand2 inc)] ∧
    (processRequest cfg nowStr now1 rand1
      ⟨some name, some email, some position, some inc⟩ TransportBehavior.ok disk1).sent
      ≠ (processRequest cfg nowStr now2 rand2
          ⟨some name, some email, some position, some inc⟩ TransportBehavior.ok disk2).sent := by
  have hne : ¬ ((some name).getD "" = "" ∨ (some email).getD "" = ""
      ∨ (some position).getD "" = "") := by
    simp [hname, hpos, emailRegexTest_ne_empty htest]
  have hpathne : uploadPath now1 rand1 inc.originalname
      ≠ uploadPath now2 rand2 inc.originalname := by
    intro he
    exact hdraw (uploadPath_inj he)
  have hnamene : genFilename now1 rand1 inc.originalname
      ≠ genFilename now2 rand2 inc.originalname := by
    intro he
    exact hdraw (genFilenameL_inj (congrArg String.data he))
  rw [processRequest_eq_stored cfg nowStr now1 rand1 (some name) (some email)
      (some position) inc TransportBehavior.ok disk1 hm hs,
    processRequest_eq_stored cfg nowStr now2 rand2 (some name) (some email)
      (some position) inc TransportBehavior.ok disk2 hm hs,
    handleCandidatura_eq_ok cfg nowStr (some name) (some email) (some position)
      (storedFileFor now1 rand1 inc) (uploadPath now1 rand1 inc.originalname :: disk1)
      hne (by simpa using htest),
    handleCandidatura_eq_ok cfg nowStr (some name) (some email) (some position)
      (storedFileFor now2 rand2 inc) (uploadPath now2 rand2 inc.originalname :: disk2)
      hne (by simpa using htest)]
  refine ⟨hnamene, hpathne, rfl, rfl, rfl, rfl, ?_⟩
  intro he
  simp only [List.cons.injEq, and_true] at he
  have hatt := congrArg MailOptions.attachments he
  simp only [mailOptionsOf, storedFileFor] at hatt
  simp only [List.cons.injEq, and_true] at hatt
  exact hpathne (congrArg Attachment.path hatt)

/-- Witness for C8 at two concrete runs of the same form data whose
draws differ in the random suffix. -/
theorem c8_witness :
    ¬ ((17 : Nat) = 17 ∧ (3 : Nat) = 4) ∧
    (genFilename 17 3 "cv.pdf" ≠ genFilename 17 4 "cv.pdf" ∧
    uploadPath 17 3 "cv.pdf" ≠ uploadPath 17 4 "cv.pdf" ∧
    (processRequest defaultConfig "ts" 17 3
      ⟨some "Ana", some "ana@ex.com", some "Dev",
        some ⟨"cv.pdf", "application/pdf", 100⟩⟩ TransportBehavior.ok []).status = 200 ∧
    (processRequest defaultConfig "ts" 17 3
      ⟨some "Ana", some "ana@ex.com", some "Dev",
        some ⟨"cv.pdf", "application/pdf", 100⟩⟩ TransportBehavior.ok []).sent
      = [mailOptionsOf defaultConfig "ts" "Ana" "ana@ex.com" "Dev"
          (storedFileFor 17 3 ⟨"cv.pdf", "application/pdf", 100⟩)] ∧
    (processRequest defaultConfig "ts" 17 4
      ⟨some "Ana", some "ana@ex.com", some "Dev",
        some ⟨"cv.pdf", "application/pdf", 100⟩⟩ TransportBehavior.ok []).status = 200 ∧
    (processRequest defaultConfig "ts" 17 4
      ⟨some "Ana", some "ana@ex.com", some "Dev",
        some ⟨"cv.pdf", "application/pdf", 100⟩⟩ TransportBehavior.ok []).sent
      = [mailOptionsOf defaultConfig "ts" "Ana" "ana@ex.com" "Dev"
          (storedFileFor 17 4 ⟨"cv.pdf", "application/pdf", 100⟩)] ∧
    (processRequest defaultConfig "ts" 17 3
      ⟨some "Ana", some "ana@ex.com", some "Dev",
        some ⟨"cv.pdf", "application/pdf", 100⟩⟩ TransportBehavior.ok []).sent
      ≠ (processRequest defaultConfig "ts" 17 4
          ⟨some "Ana", some "ana@ex.com", some "Dev",
            some ⟨"cv.pdf", "application/pdf", 100⟩⟩ TransportBehavior.ok []).sent) :=
  ⟨by omega,
    c8_filenames_distinct defaultConfig "ts" 17 3 17 4 "Ana" "ana@ex.com" "Dev"
      ⟨"cv.pdf", "application/pdf", 100⟩ [] [] (by omega) (by decide) (by decide)
      (by decide) (by decide) (by decide)⟩

/-- C10: every JSON response of the POST /enviar-candidatura pipeline
carries the envelope modelled by the success and message fields of
HandlerResult, and the success field is true exactly when the HTTP
status is 200, over every submission, transport behavior, and initial
disk. -/
theorem c10_success_iff_status_200 (cfg : Config) (nowStr : String) (now rand : Nat)
    (form : FormData) (tr : TransportBehavior) (disk0 : List String) :
    ((processRequest cfg nowStr now rand form tr disk0).success = true
      ↔ (processRequest cfg nowStr now rand form tr disk0).status = 200) := by
  obtain ⟨n, e, p, f⟩ := form
  cases f with
  | none =>
    rw [processRequest_eq_noFile]
    simp [handleCandidatura, missingFieldsResult]
  | some inc =>
    by_cases hm : inc.mimetype ∈ allowedMimes
    · by_cases hs : inc.size ≤ fileSizeLimit
      · rw [processRequest_eq_stored cfg nowStr now rand n e p inc tr disk0 hm hs]
        cases tr <;> simp only [handleCandidatura] <;> split_ifs <;>
          simp [missingFieldsResult]
      · simp only [processRequest, multerSingle]
        rw [if_pos hm, if_neg hs]
        simp
    · simp only [processRequest, multerSingle]
      rw [if_neg hm]
      simp

/-- C2 counterexample: a submission missing its name field whose resume
file exceeds the size limit is answered 500 by the global error
middleware (the multer error falls through the stack before the route
body and its missing-field check ever run), refuting the unconditional
400 of the claim as stated. -/
theorem c2_counterexample :
    (processRequest defaultConfig "ts" 1 2
      ⟨none, some "ana@ex.com", some "Dev",
        some ⟨"cv.pdf", "application/pdf", 5242881⟩⟩ TransportBehavior.ok []).status ≠ 400 ∧
    (processRequest defaultConfig "ts" 1 2
      ⟨none, some "ana@ex.com", some "Dev",
        some ⟨"cv.pdf", "application/pdf", 5242881⟩⟩ TransportBehavior.ok []).status = 500 := by
  decide

/-- C2 (amended): for every submission missing any of the name, email, or
position fields or the resume file, provided the resume file (when
present) passes the upload acceptance checks (allowed content type, size
within the limit), the response is 400 with success false, and no temp
file of that submission remains on disk after the handler returns. -/
theorem c2_missing_field_rejected (cfg : Config) (nowStr : String) (now rand : Nat)
    (form : FormData) (tr : TransportBehavior) (disk0 : List String)
    (hmiss : form.name = none ∨ form.email = none ∨ form.position = none ∨ form.file = none)
    (hacc : uploadAccepted form.file = true)
    (hfresh : noResidue now rand form.file disk0) :
    (processRequest cfg nowStr now rand form tr disk0).status = 400 ∧
    (processRequest cfg nowStr now rand form tr disk0).success = false ∧
    noResidue now rand form.file (processRequest cfg nowStr now rand form tr disk0).disk := by
  obtain ⟨n, e, p, f⟩ := form
  cases f with
  | none =>
    rw [processRequest_eq_noFile]
    refine ⟨?_, ?_, ?_⟩
    · simp [handleCandidatura, missingFieldsResult]
    · simp [handleCandidatura, missingFieldsResult]
    · intro inc h
      exact absurd h (by simp)
  | some inc =>
    dsimp only at hacc
    simp only [uploadAccepted, Bool.and_eq_true, decide_eq_true_eq] at hacc
    obtain ⟨hm, hs⟩ := hacc
    have hfresh' : uploadPath now rand inc.originalname ∉ disk0 := hfresh inc rfl
    have hguard : n.getD "" = "" ∨ e.getD "" = "" ∨ p.getD "" = "" := by
      rcases hmiss with h | h | h | h
      · dsimp only at h; subst h; left; rfl
      · dsimp only at h; subst h; right; left; rfl
      · dsimp only at h; subst h; right; right; rfl
      · dsimp only at h; simp at h
    rw [processRequest_eq_stored cfg nowStr now rand n e p inc tr disk0 hm hs,
      handleCandidatura_eq_missing cfg nowStr n e p _ tr _ hguard]
    refine ⟨rfl, rfl, ?_⟩
    intro inc' h
    dsimp only at h
    injection h with h'
    subst h'
    simp only [missingFieldsResult]
    rw [diskAfterCleanup_stored]
    exact hfresh'

/-- Witness for C2 (amended) at a concrete submission missing its name
field, with an accepted file and an empty initial disk. -/
theorem c2_witness :
    ((⟨none, some "ana@ex.com", some "Dev",
        some ⟨"cv.pdf", "application/pdf", 100⟩⟩ : FormData).name = none ∨
      (⟨none, some "ana@ex.com", some "Dev",
        some ⟨"cv.pdf", "application/pdf", 100⟩⟩ : FormData).email = none ∨
      (⟨none, some "ana@ex.com", some "Dev",
        some ⟨"cv.pdf", "application/pdf", 100⟩⟩ : FormData).position = none ∨
      (⟨none, some "ana@ex.com", some "Dev",
        some ⟨"cv.pdf", "application/pdf", 100⟩⟩ : FormData).file = none) ∧
    (processRequest defaultConfig "ts" 17 3
      ⟨none, some "ana@ex.com", some "Dev",
        some ⟨"cv.pdf", "application/pdf", 100⟩⟩ TransportBehavior.ok []).status = 400 ∧
    (processRequest defaultConfig "ts" 17 3
      ⟨none, some "ana@ex.com", some "Dev",
        some ⟨"cv.pdf", "application/pdf", 100⟩⟩ TransportBehavior.ok []).success = false ∧
    noResidue 17 3 (some ⟨"cv.pdf", "application/pdf", 100⟩)
      (processRequest defaultConfig "ts" 17 3
        ⟨none, some "ana@ex.com", some "Dev",
          some ⟨"cv.pdf", "application/pdf", 100⟩⟩ TransportBehavior.ok []).disk :=
  ⟨Or.inl rfl,
    c2_missing_field_rejected defaultConfig "ts" 17 3
      ⟨none, some "ana@ex.com", some "Dev", some ⟨"cv.pdf", "application/pdf", 100⟩⟩
      TransportBehavior.ok [] (Or.inl rfl) (by decide)
      (fun inc h => by injection h with h'; subst h'; exact List.not_mem_nil _)⟩

/-- C3 counterexample: a submission whose email field is present but
fails the regular expression, carried together with an oversized resume
file, is answered 500 by the global error middleware — the route body
and its email validation never run — refuting the unconditional 400 of
the claim as stated. -/
theorem c3_counterexample :
    ¬ emailShape "invalido".data ∧
    (processRequest defaultConfig "ts" 3 4
      ⟨some "Ana", some "invalido", some "Dev",
        some ⟨"cv.pdf", "application/pdf", 5242881⟩⟩ TransportBehavior.ok []).status ≠ 400 ∧
    (processRequest defaultConfig "ts" 3 4
      ⟨some "Ana", some "invalido", some "Dev",
        some ⟨"cv.pdf", "application/pdf", 5242881⟩⟩ TransportBehavior.ok []).status = 500 :=
  ⟨fun hsh => absurd ((emailRegexTestL_iff "invalido".data).mpr hsh) (by decide),
    by decide, by decide⟩

/-- C3 (amended): for every submission whose email field is present but
does not match the local at domain dot tld shape of the regular
expression, provided the resume file passed the upload acceptance
checks, the response is 400 with success false and the stored temp file
is removed before the handler returns. -/
theorem c3_invalid_email_rejected (cfg : Config) (nowStr : String) (now rand : Nat)
    (n p : Option String) (email : String) (inc : IncomingFile)
    (tr : TransportBehavior) (disk0 : List String)
    (hshape : ¬ emailShape email.data)
    (hm : inc.mimetype ∈ allowedMimes) (hs : inc.size ≤ fileSizeLimit)
    (hfresh : uploadPath now rand inc.originalname ∉ disk0) :
    (processRequest cfg nowStr now rand ⟨n, some email, p, some inc⟩ tr disk0).status = 400 ∧
    (processRequest cfg nowStr now rand ⟨n, some email, p, some inc⟩ tr disk0).success = false ∧
    uploadPath now rand inc.originalname
      ∉ (processRequest cfg nowStr now rand ⟨n, some email, p, some inc⟩ tr disk0).disk := by
  have htest : emailRegexTest email = false := by
    cases h2 : emailRegexTest email
    · rfl
    · exact absurd ((emailRegexTestL_iff email.data).mp h2) hshape
  rw [processRequest_eq_stored cfg nowStr now rand n (some email) p inc tr disk0 hm hs]
  by_cases hguard : n.getD "" = "" ∨ (some email).getD "" = "" ∨ p.getD "" = ""
  · rw [handleCandidatura_eq_missing cfg nowStr n (some email) p _ tr _ hguard]
    refine ⟨rfl, rfl, ?_⟩
    simp only [missingFieldsResult]
    rw [diskAfterCleanup_stored]
    exact hfresh
  · rw [handleCandidatura_eq_invalid cfg nowStr n (some email) p _ tr _ hguard
      (by simpa using htest)]
    refine ⟨rfl, rfl, ?_⟩
    simp only [diskAfterCleanup_stored]
    exact hfresh

/-- Witness for C3 (amended) at a concrete present-but-invalid email and
an accepted file. -/
theorem c3_witness :
    ¬ emailShape "sem-arroba".data ∧
    (processRequest defaultConfig "ts" 19 5
      ⟨some "Ana", some "sem-arroba", some "Dev",
        some ⟨"cv.pdf", "application/pdf", 100⟩⟩ TransportBehavior.ok []).status = 400 ∧
    (processRequest defaultConfig "ts" 19 5
      ⟨some "Ana", some "sem-arroba", some "Dev",
        some ⟨"cv.pdf", "application/pdf", 100⟩⟩ TransportBehavior.ok []).success = false ∧
    uploadPath 19 5 "cv.pdf"
      ∉ (processRequest defaultConfig "ts" 19 5
          ⟨some "Ana", some "sem-arroba", some "Dev",
            some ⟨"cv.pdf", "application/pdf", 100⟩⟩ TransportBehavior.ok []).disk :=
  have hsh : ¬ emailShape "sem-arroba".data :=
    fun hsh => absurd ((emailRegexTestL_iff "sem-arroba".data).mpr hsh) (by decide)
  ⟨hsh,
    c3_invalid_email_rejected defaultConfig "ts" 19 5
      (some "Ana") (some "Dev") "sem-arroba" ⟨"cv.pdf", "application/pdf", 100⟩
      TransportBehavior.ok [] hsh (by decide) (by decide) (List.not_mem_nil _)⟩

/-- C6: for every submission with all four fields present and truthy, an
email accepted by the regular expression, an accepted file, and a
transport whose verification and send both succeed, the response is 200
with success true, exactly one mail is dispatched, that mail has
reply-to set to the applicant email and carries the resume as its only
attachment (original name, stored path, content type), and the temp
file no longer exists on disk after the handler returns. -/
theorem c6_valid_dispatch_success (cfg : Config) (nowStr : String) (now rand : Nat)
    (name email position : String) (inc : IncomingFile) (disk0 : List String)
    (hname : name ≠ "") (hpos : position ≠ "")
    (htest : emailRegexTest email = true)
    (hm : inc.mimetype ∈ allowedMimes) (hs : inc.size ≤ fileSizeLimit)
    (hfresh : uploadPath now rand inc.originalname ∉ disk0) :
    (processRequest cfg nowStr now rand ⟨some name, some email, some position, some inc⟩
      TransportBehavior.ok disk0).status = 200 ∧
    (processRequest cfg nowStr now rand ⟨some name, some email, some position, some inc⟩
      TransportBehavior.ok disk0).success = true ∧
    (processRequest cfg nowStr now rand ⟨some name, some email, some position, some inc⟩
      TransportBehavior.ok disk0).sent
      = [mailOptionsOf cfg nowStr name email position (storedFileFor now rand inc)] ∧
    (mailOptionsOf cfg nowStr name email position (storedFileFor now rand inc)).replyTo
      = email ∧
    (mailOptionsOf cfg nowStr name email position (storedFileFor now rand inc)).attachments
      = [{ filename := inc.originalname, path := uploadPath now rand inc.originalname,
           contentType := inc.mimetype }] ∧
    uploadPath now rand inc.originalname
      ∉ (processRequest cfg nowStr now rand ⟨some name, some email, some position, some inc⟩
          TransportBehavior.ok disk0).disk := by
  have hne : ¬ ((some name).getD "" = "" ∨ (some email).getD "" = ""
      ∨ (some position).getD "" = "") := by
    simp [hname, hpos, emailRegexTest_ne_empty htest]
  rw [processRequest_eq_stored cfg nowStr now rand (some name) (some email) (some position)
      inc TransportBehavior.ok disk0 hm hs,
    handleCandidatura_eq_ok cfg nowStr (some name) (some email) (some position) _ _ hne
      (by simpa using htest)]
  refine ⟨rfl, rfl, rfl, rfl, ?_, ?_⟩
  · simp [mailOptionsOf, storedFileFor]
  · simp only [diskAfterCleanup_stored]
    exact hfresh

/-- Witness for C6 at a concrete fully valid submission. -/
theorem c6_witness :
    ("Ana" ≠ "" ∧ "Dev" ≠ "" ∧ emailRegexTest "ana@ex.com" = true ∧
      "application/pdf" ∈ allowedMimes ∧ 100 ≤ fileSizeLimit) ∧
    (processRequest defaultConfig "ts" 17 3
      ⟨some "Ana", some "ana@ex.com", some "Dev",
        some ⟨"cv.pdf", "application/pdf", 100⟩⟩ TransportBehavior.ok []).status = 200 ∧
    (processRequest defaultConfig "ts" 17 3
      ⟨some "Ana", some "ana@ex.com", some "Dev",
        some ⟨"cv.pdf", "application/pdf", 100⟩⟩ TransportBehavior.ok []).success = true ∧
    (processRequest defaultConfig "ts" 17 3
      ⟨some "Ana", some "ana@ex.com", some "Dev",
        some ⟨"cv.pdf", "application/pdf", 100⟩⟩ TransportBehavior.ok []).sent
      = [mailOptionsOf defaultConfig "ts" "Ana" "ana@ex.com" "Dev"
          (storedFileFor 17 3 ⟨"cv.pdf", "application/pdf", 100⟩)] ∧
    (mailOptionsOf defaultConfig "ts" "Ana" "ana@ex.com" "Dev"
        (storedFileFor 17 3 ⟨"cv.pdf", "application/pdf", 100⟩)).replyTo = "ana@ex.com" ∧
    (mailOptionsOf defaultConfig "ts" "Ana" "ana@ex.com" "Dev"
        (storedFileFor 17 3 ⟨"cv.pdf", "application/pdf", 100⟩)).attachments
      = [{ filename := "cv.pdf", path := uploadPath 17 3 "cv.pdf",
           contentType := "application/pdf" }] ∧
    uploadPath 17 3 "cv.pdf"
      ∉ (processRequest defaultConfig "ts" 17 3
          ⟨some "Ana", some "ana@ex.com", some "Dev",
            some ⟨"cv.pdf", "application/pdf", 100⟩⟩ TransportBehavior.ok []).disk :=
  ⟨⟨by decide, by decide, by decide, by decide, by decide⟩,
    c6_valid_dispatch_success defaultConfig "ts" 17 3 "Ana" "ana@ex.com" "Dev"
      ⟨"cv.pdf", "application/pdf", 100⟩ [] (by decide) (by decide) (by decide)
      (by decide) (by decide) (List.not_mem_nil _)⟩

/-- C7: for every submission with valid input but a transport whose
verification throws (unreachable or misconfigured mail server), the
failure is before any send: the response is 500, no sendMail call is
attempted, no mail is delivered, and the temp file no longer exists on
disk after the handler returns. -/
theorem c7_verify_failure_no_send (cfg : Config) (nowStr : String) (now rand : Nat)
    (name email position : String) (inc : IncomingFile) (err : JsError)
    (disk0 : List String)
    (hname : name ≠ "") (hpos : position ≠ "")
    (htest : emailRegexTest email = true)
    (hm : inc.mimetype ∈ allowedMimes) (hs : inc.size ≤ fileSizeLimit)
    (hfresh : uploadPath now rand inc.originalname ∉ disk0) :
    (processRequest cfg nowStr now rand ⟨some name, some email, some position, some inc⟩
      (.verifyFails err) disk0).status = 500 ∧
    (processRequest cfg nowStr now rand ⟨some name, some email, some position, some inc⟩
      (.verifyFails err) disk0).success = false ∧
    (processRequest cfg nowStr now rand ⟨some name, some email, some position, some inc⟩
      (.verifyFails err) disk0).attempts = [] ∧
    (processRequest cfg nowStr now rand ⟨some name, some email, some position, some inc⟩
      (.verifyFails err) disk0).sent = [] ∧
    uploadPath now rand inc.originalname
      ∉ (processRequest cfg nowStr now rand ⟨some name, some email, some position, some inc⟩
          (.verifyFails err) disk0).disk := by
  have hne : ¬ ((some name).getD "" = "" ∨ (some email).getD "" = ""
      ∨ (some position).getD "" = "") := by
    simp [hname, hpos, emailRegexTest_ne_empty htest]
  rw [processRequest_eq_stored cfg nowStr now rand (some name) (some email) (some position)
      inc (.verifyFails err) disk0 hm hs,
    handleCandidatura_eq_verifyFails cfg nowStr (some name) (some email) (some position)
      _ _ err hne (by simpa using htest)]
  refine ⟨rfl, rfl, rfl, rfl, ?_⟩
  simp only [diskAfterCleanup_stored]
  exact hfresh

/-- Witness for C7 at a concrete valid submission and a transport whose
verification throws a connection error. -/
theorem c7_witness :
    ("Ana" ≠ "" ∧ "Dev" ≠ "" ∧ emailRegexTest "ana@ex.com" = true ∧
      "application/pdf" ∈ allowedMimes ∧ 100 ≤ fileSizeLimit) ∧
    (processRequest defaultConfig "ts" 17 3
      ⟨some "Ana", some "ana@ex.com", some "Dev",
        some ⟨"cv.pdf", "application/pdf", 100⟩⟩
      (.verifyFails ⟨"ECONNECTION", "connect ECONNREFUSED"⟩) []).status = 500 ∧
    (processRequest defaultConfig "ts" 17 3
      ⟨some "Ana", some "ana@ex.com", some "Dev",
        some ⟨"cv.pdf", "application/pdf", 100⟩⟩
      (.verifyFails ⟨"ECONNECTION", "connect ECONNREFUSED"⟩) []).success = false ∧
    (processRequest defaultConfig "ts" 17 3
      ⟨some "Ana", some "ana@ex.com", some "Dev",
        some ⟨"cv.pdf", "application/pdf", 100⟩⟩
      (.verifyFails ⟨"ECONNECTION", "connect ECONNREFUSED"⟩) []).attempts = [] ∧
    (processRequest defaultConfig "ts" 17 3
      ⟨some "Ana", some "ana@ex.com", some "Dev",
        some ⟨"cv.pdf", "application/pdf", 100⟩⟩
      (.verifyFails ⟨"ECONNECTION", "connect ECONNREFUSED"⟩) []).sent = [] ∧
    uploadPath 17 3 "cv.pdf"
      ∉ (processRequest defaultConfig "ts" 17 3
          ⟨some "Ana", some "ana@ex.com", some "Dev",
            some ⟨"cv.pdf", "application/pdf", 100⟩⟩
          (.verifyFails ⟨"ECONNECTION", "connect ECONNREFUSED"⟩) []).disk :=
  ⟨⟨by decide, by decide, by decide, by decide, by decide⟩,
    c7_verify_failure_no_send defaultConfig "ts" 17 3 "Ana" "ana@ex.com" "Dev"
      ⟨"cv.pdf", "application/pdf", 100⟩ ⟨"ECONNECTION", "connect ECONNREFUSED"⟩ []
      (by decide) (by decide) (by decide) (by decide) (by decide) (List.not_mem_nil _)⟩

/-- C9: for every dispatch error (verification or send failure) on a
valid submission, the 500 response carries a message chosen from a fixed
set of user-facing strings by the error code alone — the internal detail
(exception message or stack) never reaches the message, which is
invariant under the detail — and an authentication or connection code
yields a message distinct from the messages of every other error. -/
theorem c9_error_messages (cfg : Config) (nowStr : String) (now rand : Nat)
    (name email position : String) (inc : IncomingFile) (err : JsError)
    (tr : TransportBehavior) (disk0 : List String)
    (htr : tr = .verifyFails err ∨ tr = .sendFails err)
    (hname : name ≠ "") (hpos : position ≠ "")
    (htest : emailRegexTest email = true)
    (hm : inc.mimetype ∈ allowedMimes) (hs : inc.size ≤ fileSizeLimit) :
    (processRequest cfg nowStr now rand ⟨some name, some email, some position, some inc⟩
      tr disk0).status = 500 ∧
    (processRequest cfg nowStr now rand ⟨some name, some email, some position, some inc⟩
      tr disk0).message = errorMessage err ∧
    (errorMessage err = "Erro de configuração do servidor de e-mail" ∨
      errorMessage err = "Erro ao processar o arquivo anexo" ∨
      errorMessage err = "Erro interno do servidor") ∧
    errorMessage { code := err.code, detail := "" } = errorMessage err ∧
    ((err.code = "ECONNECTION" ∨ err.code = "EAUTH") →
      errorMessage err ≠ "Erro ao processar o arquivo anexo" ∧
      errorMessage err ≠ "Erro interno do servidor") := by
  have hne : ¬ ((some name).getD "" = "" ∨ (some email).getD "" = ""
      ∨ (some position).getD "" = "") := by
    simp [hname, hpos, emailRegexTest_ne_empty htest]
  have hmem : errorMessage err = "Erro de configuração do servidor de e-mail" ∨
      errorMessage err = "Erro ao processar o arquivo anexo" ∨
      errorMessage err = "Erro interno do servidor" := by
    unfold errorMessage
    split_ifs <;> simp
  have hdetail : errorMessage { code := err.code, detail := "" } = errorMessage err := rfl
  have hdistinct : (err.code = "ECONNECTION" ∨ err.code = "EAUTH") →
      errorMessage err ≠ "Erro ao processar o arquivo anexo" ∧
      errorMessage err ≠ "Erro interno do servidor" := by
    intro hc
    unfold errorMessage
    rw [if_pos hc]
    exact ⟨by decide, by decide⟩
  rcases htr with rfl | rfl
  · rw [processRequest_eq_stored cfg nowStr now rand (some name) (some email) (some position)
        inc (.verifyFails err) disk0 hm hs,
      handleCandidatura_eq_verifyFails cfg nowStr (some name) (some email) (some position)
        _ _ err hne (by simpa using htest)]
    exact ⟨rfl, rfl, hmem, hdetail, hdistinct⟩
  · rw [processRequest_eq_stored cfg nowStr now rand (some name) (some email) (some position)
        inc (.sendFails err) disk0 hm hs,
      handleCandidatura_eq_sendFails cfg nowStr (some name) (some email) (some position)
        _ _ err hne (by simpa using htest)]
    exact ⟨rfl, rfl, hmem, hdetail, hdistinct⟩

/-- Witness for C9 at a concrete valid submission whose sendMail throws
an authentication error carrying internal detail. -/
theorem c9_witness :
    (processRequest defaultConfig "ts" 17 3
      ⟨some "Ana", some "ana@ex.com", some "Dev",
        some ⟨"cv.pdf", "application/pdf", 100⟩⟩
      (.sendFails ⟨"EAUTH", "535 Authentication failed"⟩) []).status = 500 ∧
    (processRequest defaultConfig "ts" 17 3
      ⟨some "Ana", some "ana@ex.com", some "Dev",
        some ⟨"cv.pdf", "application/pdf", 100⟩⟩
      (.sendFails ⟨"EAUTH", "535 Authentication failed"⟩) []).message
      = errorMessage ⟨"EAUTH", "535 Authentication failed"⟩ ∧
    (errorMessage ⟨"EAUTH", "535 Authentication failed"⟩
        = "Erro de configuração do servidor de e-mail" ∨
      errorMessage ⟨"EAUTH", "535 Authentication failed"⟩
        = "Erro ao processar o arquivo anexo" ∨
      errorMessage ⟨"EAUTH", "535 Authentication failed"⟩
        = "Erro interno do servidor") ∧
    errorMessage { code := "EAUTH", detail := "" }
      = errorMessage ⟨"EAUTH", "535 Authentication failed"⟩ ∧
    (("EAUTH" = "ECONNECTION" ∨ "EAUTH" = "EAUTH") →
      errorMessage ⟨"EAUTH", "535 Authentication failed"⟩
        ≠ "Erro ao processar o arquivo anexo" ∧
      errorMessage ⟨"EAUTH", "535 Authentication failed"⟩
        ≠ "Erro interno do servidor") :=
  c9_error_messages defaultConfig "ts" 17 3 "Ana" "ana@ex.com" "Dev"
    ⟨"cv.pdf", "application/pdf", 100⟩ ⟨"EAUTH", "535 Authentication failed"⟩
    (.sendFails ⟨"EAUTH", "535 Authentication failed"⟩) [] (Or.inr rfl)
    (by decide) (by decide) (by decide) (by decide) (by decide)

end PWS
